import Mathlib

/-
Verification of the unicef-mcp-server query adapter and the chart renderer of the
world-bank-unicef-data repository, as a shallow embedding in Lean 4.

Conventions of the embedding:
- JavaScript values that may be `undefined`/`null` are `Option _`; `undefined`
  interpolated into a template literal renders as the string "undefined".
- JavaScript truthiness on strings (empty string falsy) and numbers (0 falsy) is
  made explicit by jsTruthyS / jsTruthyI.
- Network and parsing effects are an explicit oracle: each remote endpoint the
  adapter contacts is a field of the Oracle structure returning
  Except String _ (error covers both a rejected fetch and a parse failure, as
  both land in the same catch block of the source).
-/

/-- Char-list analogue of a leading-segment test: the first list read in order
is an initial segment of the second. -/
def leadsChars : List Char → List Char → Bool
  | [], _ => true
  | _ :: _, [] => false
  | a :: as, b :: bs => a == b && leadsChars as bs

/-- Char-list analogue of a contiguous-occurrence test: the first list occurs
contiguously somewhere inside the second. -/
def withinChars : List Char → List Char → Bool
  | n, [] => leadsChars n []
  | n, c :: h => leadsChars n (c :: h) || withinChars n h

/-- JavaScript String.prototype.includes: the needle occurs contiguously in the
haystack. -/
def strIncludes (h n : String) : Bool := withinChars n.data h.data

/-- JavaScript Array.prototype.join(", ") on an array of strings. -/
def joinComma : List String → String
  | [] => ""
  | [x] => x
  | x :: y :: ys => x ++ ", " ++ joinComma (y :: ys)

/-- Interpolation of a possibly-undefined string into a template literal. -/
def jsShow : Option String → String
  | some s => s
  | none => "undefined"

/-- Interpolation of a possibly-undefined integer into a template literal. -/
def jsShowInt : Option Int → String
  | some y => toString y
  | none => "undefined"

/-- JavaScript truthiness of a possibly-undefined string. -/
def jsTruthyS : Option String → Bool
  | some s => s != ""
  | none => false

/-- JavaScript truthiness of a possibly-undefined integer. -/
def jsTruthyI : Option Int → Bool
  | some y => y != 0
  | none => false

/-- JavaScript a || d for a possibly-undefined string a and a string default:
falls through on undefined and on the empty (falsy) string. -/
def jsOrStr : Option String → String → String
  | some s, d => if s == "" then d else s
  | none, d => d

/-- Whitespace characters recognized by String.prototype.trim (the code points
exercised by CSV bodies: space, tab, newline, carriage return, vertical tab,
form feed). -/
def isWsChar (c : Char) : Bool :=
  c == ' ' || c == '\t' || c == '\n' || c == '\r' || c.val == 11 || c.val == 12

/-- JavaScript String.prototype.trim. -/
def jsTrim (s : String) : String :=
  ⟨((s.data.dropWhile isWsChar).reverse.dropWhile isWsChar).reverse⟩

/-- JavaScript String.prototype.toLowerCase, on the ASCII range exercised by
SDMX identifiers and labels. -/
def strLower (s : String) : String := ⟨s.data.map Char.toLower⟩

/-- A code inside a codelist of an SDMX metadata document: `id`, `names.en` and
`name` may each be absent. -/
structure Code where
  id : Option String
  names_en : Option String
  name : Option String
deriving DecidableEq

/-- A codelist of an SDMX metadata document: `id` and the `codes` array may be
absent. -/
structure Codelist where
  id : Option String
  codes : Option (List Code)
deriving DecidableEq

/-- One dataflow stub of the discovery response. -/
structure Dataflow where
  id : Option String
  names_en : Option String
  name : Option String
  agencyID : Option String
deriving DecidableEq

/-- The {id, name} pair produced for each indicator code. -/
structure Entry where
  id : Option String
  name : String
deriving DecidableEq

/-- The {id, name, agency} record produced for each discovered dataflow. -/
structure DfEntry where
  id : Option String
  name : String
  agency : Option String
deriving DecidableEq

/-- The argument mapping of a tool invocation; absent arguments are none. -/
structure Args where
  dataflow_id : Option String
  country_code : Option String
  indicator_id : Option String
  start_year : Option Int
  end_year : Option Int
  keyword : Option String
deriving DecidableEq

/-- Result of one handler: a normal text payload, or an exception propagating
to the dispatch boundary. -/
inductive TRes where
  | ok (text : String)
  | thrown (msg : String)
deriving DecidableEq

/-- The remote service, as an oracle. dataflowRes answers the discovery call;
metaRes answers the dataflow-metadata call, keyed by the dataflow id rendered
into the URL (the codelists of the parsed document, [] when the document has
none); dataRes answers the tabular data call, keyed by the full URL.
Except.error covers a rejected fetch and a parse failure alike. -/
structure Oracle where
  dataflowRes : Except String (List Dataflow)
  metaRes : String → Except String (List Codelist)
  dataRes : String → Except String String

def jsonQ (s : String) : String := "\"" ++ s ++ "\""

def lbr : String := "\x7b"

def rbr : String := "\x7d"

/-- Serialization of one {id, name} entry (JSON.stringify model; an absent id
is omitted, as JSON.stringify drops undefined properties). -/
def entryJson (e : Entry) : String :=
  lbr ++ (match e.id with
    | some i => jsonQ "id" ++ ": " ++ jsonQ i ++ ", "
    | none => "") ++ jsonQ "name" ++ ": " ++ jsonQ e.name ++ rbr

/-- Serialization of a list of entries (JSON.stringify model). -/
def entriesJson : List Entry → String
  | [] => "[]"
  | es => "[" ++ joinComma (es.map entryJson) ++ "]"

/-- Serialization of one discovered-dataflow record. -/
def dfEntryJson (e : DfEntry) : String :=
  lbr ++ (match e.id with
    | some i => jsonQ "id" ++ ": " ++ jsonQ i ++ ", "
    | none => "")
    ++ jsonQ "name" ++ ": " ++ jsonQ e.name
    ++ (match e.agency with
    | some a => ", " ++ jsonQ "agency" ++ ": " ++ jsonQ a
    | none => "") ++ rbr

/-- Serialization of the discovered-dataflow list. -/
def dfEntriesJson : List DfEntry → String
  | [] => "[]"
  | es => "[" ++ joinComma (es.map dfEntryJson) ++ "]"

def UNICEF_API_BASE : String := "https://sdmx.data.unicef.org/ws/public/sdmxapi/rest"

/-- cl.id?.includes("INDICATOR") || cl.id?.includes("IND") — the codelist
selection heuristic shared by getIndicators and searchIndicators. -/
def hasIndicatorId (cl : Codelist) : Bool :=
  match cl.id with
  | some s => strIncludes s "INDICATOR" || strIncludes s "IND"
  | none => false

/-- code => ({ id: code.id, name: code.names?.en || code.name || "Unknown" }) -/
def codeEntry (c : Code) : Entry :=
  ⟨c.id, jsOrStr c.names_en (jsOrStr c.name "Unknown")⟩

/-- df => ({ id: df.id, name: df.names?.en || df.name || "Unknown", agency: df.agencyID }) -/
def dfRecord (df : Dataflow) : DfEntry :=
  ⟨df.id, jsOrStr df.names_en (jsOrStr df.name "Unknown"), df.agencyID⟩

/-- listDataflows: discovery call, map each stub, serialize. -/
def listDataflows (o : Oracle) : TRes :=
  match o.dataflowRes with
  | .error m => .thrown ("Failed to fetch dataflows: " ++ m)
  | .ok dfs => .ok (dfEntriesJson (dfs.map dfRecord))

/-- getIndicators: metadata call for the dataflow, pick the first codelist whose
id matches the heuristic, serialize the first 100 codes; when none matches,
report the codelist ids that were present. -/
def getIndicators (o : Oracle) (df : Option String) : TRes :=
  match o.metaRes (jsShow df) with
  | .error m => .thrown ("Failed to fetch indicators: " ++ m)
  | .ok cls =>
    match cls.find? hasIndicatorId with
    | none => .ok ("No indicator codelist found for dataflow " ++ jsShow df
        ++ ". Available codelists: " ++ joinComma (cls.map (fun c => c.id.getD "")))
    | some cl => .ok (entriesJson (((cl.codes.getD []).map codeEntry).take 100))

/-- The dimension key: country, then "." and the indicator when the indicator is
truthy, a bare "." otherwise. -/
def dataKeyOf (cc ind : Option String) : String :=
  jsShow cc ++ (if jsTruthyS ind then "." ++ jsShow ind else ".")

/-- The startPeriod fragment, appended only for a truthy start year. -/
def startSegOf (sy : Option Int) : String :=
  if jsTruthyI sy then "&startPeriod=" ++ jsShowInt sy else ""

/-- The endPeriod fragment, appended only for a truthy end year. -/
def endSegOf (ey : Option Int) : String :=
  if jsTruthyI ey then "&endPeriod=" ++ jsShowInt ey else ""

/-- The data-retrieval URL built by getData. -/
def getDataUrl (df cc ind : Option String) (sy ey : Option Int) : String :=
  UNICEF_API_BASE ++ "/data/UNICEF," ++ jsShow df ++ ",1.0/" ++ dataKeyOf cc ind
    ++ "?format=csv" ++ startSegOf sy ++ endSegOf ey

/-- getData: build the URL, fetch, return the body verbatim; an empty or
whitespace-only body becomes the "No data found" message. -/
def getData (o : Oracle) (df cc ind : Option String) (sy ey : Option Int) : TRes :=
  match o.dataRes (getDataUrl df cc ind sy ey) with
  | .error m => .thrown ("Failed to fetch data: " ++ m)
  | .ok body =>
    if body == "" || jsTrim body == "" then
      .ok ("No data found for " ++ jsShow cc ++ " in " ++ jsShow df)
    else
      .ok body

/-- The filter of searchIndicators, applied to the pre-lowered keyword kl:
(code.names?.en || code.name || "").toLowerCase().includes(kl)
|| (code.id || "").toLowerCase().includes(kl). -/
def searchPred (kl : String) (c : Code) : Bool :=
  strIncludes (strLower (jsOrStr c.names_en (jsOrStr c.name ""))) kl
    || strIncludes (strLower (jsOrStr c.id "")) kl

/-- The matching {id, name} entries of searchIndicators, before the slice. -/
def searchMatches (k : String) (codes : List Code) : List Entry :=
  (codes.filter (searchPred (strLower k))).map codeEntry

/-- searchIndicators: metadata call for GLOBAL_DATAFLOW, same codelist
heuristic; on a match, filter by the lowered keyword and serialize the first
50 entries. An undefined keyword throws at the .toLowerCase() call (reached
only after the codelist was found). -/
def searchIndicators (o : Oracle) (kw : Option String) : TRes :=
  match o.metaRes "GLOBAL_DATAFLOW" with
  | .error m => .thrown ("Failed to search indicators: " ++ m)
  | .ok cls =>
    match cls.find? hasIndicatorId with
    | none => .ok "Could not find indicator codelist"
    | some cl =>
      match kw with
      | none => .thrown "Failed to search indicators: Cannot read properties of undefined (reading toLowerCase)"
      | some k => .ok (entriesJson ((searchMatches k (cl.codes.getD [])).take 50))

/-- The switch over the submitted tool name; the default case throws. -/
def callTool (o : Oracle) (name : String) (a : Args) : TRes :=
  if name == "list_dataflows" then listDataflows o
  else if name == "get_indicators" then getIndicators o a.dataflow_id
  else if name == "get_child_poverty_data" then
    getData o (some "CHLD_PVTY") a.country_code none a.start_year a.end_year
  else if name == "get_child_mortality_data" then
    getData o (some "CME") a.country_code none a.start_year a.end_year
  else if name == "get_nutrition_data" then
    getData o (some "NUTRITION") a.country_code none a.start_year a.end_year
  else if name == "get_indicator_for_country" then
    getData o a.dataflow_id a.country_code a.indicator_id a.start_year a.end_year
  else if name == "search_indicators" then searchIndicators o a.keyword
  else .thrown ("Unknown tool: " ++ name)

/-- The dispatch boundary: any exception from the switch is caught and turned
into a normal payload prefixed "Error: ". -/
def dispatch (o : Oracle) (name : String) (a : Args) : String :=
  match callTool o name a with
  | .ok t => t
  | .thrown m => "Error: " ++ m

/-- Modelled from the spec for C10: the codelist selection predicate reduced to
the single disjunct "identifier contains IND". -/
def idHasIndOnly (cl : Codelist) : Bool :=
  match cl.id with
  | some s => strIncludes s "IND"
  | none => false

/-- Modelled from the spec for C6: an entry matches when its identifier or its
label contains the keyword case-insensitively. -/
def ciMatch (kw : String) (c : Code) : Bool :=
  strIncludes (strLower (jsOrStr c.id "")) (strLower kw)
    || strIncludes (strLower (jsOrStr c.names_en (jsOrStr c.name ""))) (strLower kw)

/-- One value of a chart dataset: a plain number or an {x, y} point. -/
inductive ChartVal where
  | num (n : Int)
  | pt (x y : Int)
deriving DecidableEq

/-- One dataset of a chart; styling options that never change state (fill,
tension, pointRadius) are omitted, the series content and colors are kept. -/
structure Dataset where
  label : Option String
  data : List ChartVal
  borderColor : Option String
  backgroundColor : Option String
deriving DecidableEq

/-- The mutable data of one chart: labels and datasets. -/
structure ChartData where
  labels : List String
  datasets : List Dataset
deriving DecidableEq

/-- The three charts of the page. -/
structure Charts where
  mortality : ChartData
  nutrition : ChartData
  poverty : ChartData
deriving DecidableEq

/-- The parsed summary document: each top-level key may be absent. -/
structure Summary where
  mortality : Option ChartData
  nutrition : Option ChartData
  poverty : Option ChartData
deriving DecidableEq

/-- Outcome of the summary fetch: network failure, non-success status, parse
failure, or a parsed document. -/
inductive FetchOutcome where
  | netFail
  | notOk
  | parseFail
  | doc (d : Summary)

def colorPrimary : String := "#1a73e8"

def colorSecondary : String := "#34a853"

def colorAccent : String := "#ea4335"

def colorUnicefBlue : String := "#1cabe2"

def colorWorldBankBlue : String := "#002244"

def colorWarning : String := "#fbbc04"

def colorPurple : String := "#9334e6"

/-- The mortality chart placeholder series installed by initMortalityChart. -/
def mortalityPlaceholder : ChartData :=
  ⟨["1990", "1995", "2000", "2005", "2010", "2015", "2020"],
   [⟨some "Under-5 Mortality Rate",
     [.num 93, .num 87, .num 77, .num 63, .num 52, .num 43, .num 37],
     some colorAccent, some (colorAccent ++ "20")⟩,
    ⟨some "Infant Mortality Rate",
     [.num 64, .num 60, .num 54, .num 46, .num 39, .num 32, .num 28],
     some colorPrimary, some (colorPrimary ++ "20")⟩,
    ⟨some "Neonatal Mortality Rate",
     [.num 36, .num 34, .num 31, .num 27, .num 23, .num 19, .num 17],
     some colorSecondary, some (colorSecondary ++ "20")⟩]⟩

/-- The nutrition chart placeholder series installed by initNutritionChart. -/
def nutritionPlaceholder : ChartData :=
  ⟨["Sub-Saharan Africa", "South Asia", "East Asia", "Latin America",
    "Middle East", "Europe"],
   [⟨some "Stunting (%)", [.num 33, .num 31, .num 8, .num 11, .num 15, .num 5],
     none, some (colorAccent ++ "cc")⟩,
    ⟨some "Wasting (%)", [.num 6, .num 14, .num 2, .num 1, .num 7, .num 1],
     none, some (colorWarning ++ "cc")⟩,
    ⟨some "Underweight (%)", [.num 18, .num 27, .num 4, .num 4, .num 9, .num 2],
     none, some (colorPurple ++ "cc")⟩]⟩

/-- The poverty chart placeholder installed by initPovertyChart (a scatter
configuration: no labels array, one dataset of points). -/
def povertyPlaceholder : ChartData :=
  ⟨[],
   [⟨some "GDP per Capita vs Under-5 Mortality",
     [.pt 500 120, .pt 1000 90, .pt 2000 60, .pt 5000 35,
      .pt 10000 20, .pt 20000 10, .pt 40000 5, .pt 60000 4],
     some colorUnicefBlue, some (colorUnicefBlue ++ "80")⟩]⟩

/-- The chart state right after the three init calls. -/
def initCharts : Charts :=
  ⟨mortalityPlaceholder, nutritionPlaceholder, povertyPlaceholder⟩

/-- updateMortalityChart: overwrite labels and datasets of the mortality chart. -/
def updateMortalityChart (d : ChartData) (s : Charts) : Charts :=
  { s with mortality := ⟨d.labels, d.datasets⟩ }

/-- updateNutritionChart: overwrite labels and datasets of the nutrition chart. -/
def updateNutritionChart (d : ChartData) (s : Charts) : Charts :=
  { s with nutrition := ⟨d.labels, d.datasets⟩ }

/-- updatePovertyChart: overwrite only the datasets of the poverty chart. -/
def updatePovertyChart (d : ChartData) (s : Charts) : Charts :=
  { s with poverty := ⟨s.poverty.labels, d.datasets⟩ }

/-- updateChartsWithData: apply each per-chart update when its top-level key is
present. -/
def updateChartsWithData (d : Summary) (s : Charts) : Charts :=
  let s1 := match d.mortality with
    | some m => updateMortalityChart m s
    | none => s
  let s2 := match d.nutrition with
    | some n => updateNutritionChart n s1
    | none => s1
  match d.poverty with
  | some p => updatePovertyChart p s2
  | none => s2

/-- loadDataFromJSON: only a successful fetch of a parseable document reaches
updateChartsWithData; every failure leaves the state untouched. -/
def loadDataFromJSON : FetchOutcome → Charts → Charts
  | .doc d, s => updateChartsWithData d s
  | _, s => s

theorem leadsChars_refl (l : List Char) : leadsChars l l = true := by
  induction l with
  | nil => rfl
  | cons a as ih => simp [leadsChars, ih]

theorem leadsChars_append_right (n : List Char) :
    ∀ (h t : List Char), leadsChars n h = true → leadsChars n (h ++ t) = true := by
  induction n with
  | nil => intro h t _; rfl
  | cons a as ih =>
    intro h t hl
    cases h with
    | nil => simp [leadsChars] at hl
    | cons b bs =>
      simp only [leadsChars, Bool.and_eq_true, beq_iff_eq] at hl
      simp only [List.cons_append, leadsChars, Bool.and_eq_true, beq_iff_eq]
      exact ⟨hl.1, ih bs t hl.2⟩

theorem withinChars_head (n h : List Char) (hl : leadsChars n h = true) :
    withinChars n h = true := by
  cases h with
  | nil => exact hl
  | cons c hs => simp [withinChars, hl]

theorem withinChars_cons (n : List Char) (c : Char) (h : List Char)
    (hw : withinChars n h = true) : withinChars n (c :: h) = true := by
  simp [withinChars, hw]

theorem withinChars_append_left (a n h : List Char) (hw : withinChars n h = true) :
    withinChars n (a ++ h) = true := by
  induction a with
  | nil => simpa using hw
  | cons c cs ih => simpa using withinChars_cons n c (cs ++ h) ih

theorem withinChars_nil_left (t : List Char) : withinChars [] t = true := by
  cases t with
  | nil => rfl
  | cons c ts => simp [withinChars, leadsChars]

theorem withinChars_append_right (n : List Char) :
    ∀ (h t : List Char), withinChars n h = true → withinChars n (h ++ t) = true := by
  intro h
  induction h with
  | nil =>
    intro t hw
    cases n with
    | nil => simpa using withinChars_nil_left t
    | cons a as => simp [withinChars, leadsChars] at hw
  | cons c hs ih =>
    intro t hw
    simp only [withinChars, Bool.or_eq_true] at hw
    rcases hw with hl | hwi
    · exact withinChars_head n ((c :: hs) ++ t)
        (leadsChars_append_right n (c :: hs) t hl)
    · simpa using withinChars_cons n c (hs ++ t) (ih t hwi)

theorem leadsChars_trans (m : List Char) :
    ∀ (n h : List Char), leadsChars m n = true → leadsChars n h = true →
      leadsChars m h = true := by
  induction m with
  | nil => intro n h _ _; rfl
  | cons a as ih =>
    intro n h h1 h2
    cases n with
    | nil => simp [leadsChars] at h1
    | cons b bs =>
      cases h with
      | nil => simp [leadsChars] at h2
      | cons c cs =>
        simp only [leadsChars, Bool.and_eq_true, beq_iff_eq] at h1 h2 ⊢
        exact ⟨h1.1.trans h2.1, ih bs cs h1.2 h2.2⟩

theorem withinChars_of_leads (m n : List Char) :
    ∀ (h : List Char), leadsChars m n = true → withinChars n h = true →
      withinChars m h = true := by
  intro h
  induction h with
  | nil =>
    intro hmn hw
    cases n with
    | nil =>
      cases m with
      | nil => exact hw
      | cons a as => simp [leadsChars] at hmn
    | cons b bs => simp [withinChars, leadsChars] at hw
  | cons c hs ih =>
    intro hmn hw
    simp only [withinChars, Bool.or_eq_true] at hw
    rcases hw with hl | hwi
    · exact withinChars_head m (c :: hs) (leadsChars_trans m n (c :: hs) hmn hl)
    · exact withinChars_cons m c hs (ih hmn hwi)

theorem strData_append (a b : String) : (a ++ b).data = a.data ++ b.data := by
  cases a with
  | mk la => cases b with
  | mk lb => rfl

theorem strApp_assoc (a b c : String) : a ++ b ++ c = a ++ (b ++ c) := by
  cases a with
  | mk la => cases b with
  | mk lb => cases c with
  | mk lc => exact congrArg String.mk (List.append_assoc la lb lc)

theorem strApp_nilR (a : String) : a ++ "" = a := by
  cases a with
  | mk la => exact congrArg String.mk (List.append_nil la)

/-- A suffix of a concatenation is found by strIncludes. -/
theorem strIncludes_append_self (p n : String) : strIncludes (p ++ n) n = true := by
  unfold strIncludes
  rw [strData_append]
  exact withinChars_append_left p.data n.data n.data
    (withinChars_head n.data n.data (leadsChars_refl n.data))

/-- strIncludes is monotone along a leading-segment relation on needles. -/
theorem strIncludes_of_leads (h n m : String)
    (hl : leadsChars m.data n.data = true) (hw : strIncludes h n = true) :
    strIncludes h m = true :=
  withinChars_of_leads m.data n.data h.data hl hw

/-- Every member of a comma-joined list occurs in the joined string. -/
theorem joinComma_mem_within (l : List String) (x : String) (hx : x ∈ l) :
    withinChars x.data (joinComma l).data = true := by
  induction l with
  | nil => cases hx
  | cons y ys ih =>
    cases hx with
    | head =>
      cases ys with
      | nil => exact withinChars_head x.data x.data (leadsChars_refl x.data)
      | cons z zs =>
        rw [show joinComma (x :: z :: zs) = x ++ ", " ++ joinComma (z :: zs) from rfl]
        rw [strData_append, strData_append, List.append_assoc]
        exact withinChars_append_right x.data x.data _
          (withinChars_head x.data x.data (leadsChars_refl x.data))
    | tail _ hmem =>
      cases ys with
      | nil => cases hmem
      | cons z zs =>
        rw [show joinComma (y :: z :: zs) = y ++ ", " ++ joinComma (z :: zs) from rfl]
        rw [strData_append, strData_append, List.append_assoc]
        exact withinChars_append_left y.data x.data _
          (withinChars_append_left ", ".data x.data _ (ih hmem))

/-- find? returns the first element satisfying the predicate: the list splits
around the found element, everything before it failing the predicate. -/
theorem find?_decomp {α : Type} (p : α → Bool) :
    ∀ (l : List α) (a : α), l.find? p = some a →
      p a = true ∧ ∃ pre post, l = pre ++ a :: post ∧ ∀ c ∈ pre, p c = false := by
  intro l
  induction l with
  | nil => intro a h; simp [List.find?] at h
  | cons b bs ih =>
    intro a h
    cases hpb : p b with
    | true =>
      have hab : b = a := by
        rw [List.find?_cons_of_pos _ hpb] at h
        exact Option.some.inj h
      subst hab
      exact ⟨hpb, [], bs, rfl, by intro c hc; cases hc⟩
    | false =>
      rw [List.find?_cons_of_neg _ (by simp [hpb])] at h
      obtain ⟨hpa, pre, post, heq, hall⟩ := ih a h
      refine ⟨hpa, b :: pre, post, by rw [heq]; rfl, ?_⟩
      intro c hc
      rcases List.mem_cons.mp hc with hcb | hcp
      · rw [hcb]; exact hpb
      · exact hall c hcp

def oEmpty : Oracle := ⟨.ok [], fun _ => .ok [], fun _ => .ok ""⟩

def aEmpty : Args := ⟨none, none, none, none, none, none⟩

/-- C1: for every operation name outside the seven-entry registry, dispatch
returns a normal result payload (never an escaped exception) whose text is
"Error: Unknown tool: " followed by — and hence containing — the submitted
name. -/
theorem c1_unknown_tool_payload (o : Oracle) (a : Args) (name : String)
    (h : name ∉ (["list_dataflows", "get_indicators", "get_child_poverty_data",
      "get_child_mortality_data", "get_nutrition_data", "get_indicator_for_country",
      "search_indicators"] : List String)) :
    dispatch o name a = "Error: " ++ ("Unknown tool: " ++ name)
      ∧ strIncludes (dispatch o name a) name = true := by
  simp only [List.mem_cons, List.mem_singleton, not_or] at h
  obtain ⟨h1, h2, h3, h4, h5, h6, h7, -⟩ := h
  have e1 : (name == "list_dataflows") = false := beq_eq_false_iff_ne.mpr h1
  have e2 : (name == "get_indicators") = false := beq_eq_false_iff_ne.mpr h2
  have e3 : (name == "get_child_poverty_data") = false := beq_eq_false_iff_ne.mpr h3
  have e4 : (name == "get_child_mortality_data") = false := beq_eq_false_iff_ne.mpr h4
  have e5 : (name == "get_nutrition_data") = false := beq_eq_false_iff_ne.mpr h5
  have e6 : (name == "get_indicator_for_country") = false := beq_eq_false_iff_ne.mpr h6
  have e7 : (name == "search_indicators") = false := beq_eq_false_iff_ne.mpr h7
  have hd : dispatch o name a = "Error: " ++ ("Unknown tool: " ++ name) := by
    simp [dispatch, callTool, e1, e2, e3, e4, e5, e6, e7]
  refine ⟨hd, ?_⟩
  rw [hd, ← strApp_assoc]
  exact strIncludes_append_self ("Error: " ++ "Unknown tool: ") name

/-- Witness for C1 at the concrete unregistered name "bogus_tool". -/
theorem c1_unknown_tool_payload_witness :
    dispatch oEmpty "bogus_tool" aEmpty = "Error: " ++ ("Unknown tool: " ++ "bogus_tool")
      ∧ strIncludes (dispatch oEmpty "bogus_tool" aEmpty) "bogus_tool" = true :=
  c1_unknown_tool_payload oEmpty aEmpty "bogus_tool" (by decide)

/-- C8: each fixed-dataflow convenience wrapper produces, for every oracle and
argument mapping, the same result as get_indicator_for_country with the
dataflow fixed to CHLD_PVTY / CME / NUTRITION respectively, the same country
code and years, and no indicator_id. -/
theorem c8_wrappers_refine_generic (o : Oracle) (a : Args) :
    dispatch o "get_child_poverty_data" a
      = dispatch o "get_indicator_for_country"
          { a with dataflow_id := some "CHLD_PVTY", indicator_id := none }
    ∧ dispatch o "get_child_mortality_data" a
      = dispatch o "get_indicator_for_country"
          { a with dataflow_id := some "CME", indicator_id := none }
    ∧ dispatch o "get_nutrition_data" a
      = dispatch o "get_indicator_for_country"
          { a with dataflow_id := some "NUTRITION", indicator_id := none } := by
  refine ⟨?_, ?_, ?_⟩ <;> rfl

/-- C10: the codelist selection predicate with its two substring disjuncts is
extensionally the single-disjunct predicate "identifier contains IND": the
INDICATOR disjunct is redundant. -/
theorem c10_ind_disjunct_redundant (cl : Codelist) :
    hasIndicatorId cl = idHasIndOnly cl := by
  unfold hasIndicatorId idHasIndOnly
  cases cl.id with
  | none => rfl
  | some s =>
    cases hind : strIncludes s "IND" with
    | true => simp [hind]
    | false =>
      have hic : strIncludes s "INDICATOR" = false := by
        cases hi : strIncludes s "INDICATOR" with
        | false => rfl
        | true =>
          have := strIncludes_of_leads s "INDICATOR" "IND" (by decide) hi
          rw [this] at hind
          cases hind
      simp [hic, hind]

/-- C9: for each chart, when the summary fetch fails, has a non-success status,
fails to parse, or yields a document lacking that chart's top-level key, that
chart's labels and datasets remain exactly the placeholder series installed at
initialization. -/
theorem c9_placeholders_retained (r : FetchOutcome) :
    ((∀ d, r = .doc d → d.mortality = none) →
      (loadDataFromJSON r initCharts).mortality = initCharts.mortality)
    ∧ ((∀ d, r = .doc d → d.nutrition = none) →
      (loadDataFromJSON r initCharts).nutrition = initCharts.nutrition)
    ∧ ((∀ d, r = .doc d → d.poverty = none) →
      (loadDataFromJSON r initCharts).poverty = initCharts.poverty) := by
  cases r with
  | netFail => exact ⟨fun _ => rfl, fun _ => rfl, fun _ => rfl⟩
  | notOk => exact ⟨fun _ => rfl, fun _ => rfl, fun _ => rfl⟩
  | parseFail => exact ⟨fun _ => rfl, fun _ => rfl, fun _ => rfl⟩
  | doc d =>
    obtain ⟨dm, dn, dp⟩ := d
    refine ⟨?_, ?_, ?_⟩
    · intro h
      have hm : dm = none := h ⟨dm, dn, dp⟩ rfl
      subst hm
      cases dn <;> cases dp <;> rfl
    · intro h
      have hn : dn = none := h ⟨dm, dn, dp⟩ rfl
      subst hn
      cases dm <;> cases dp <;> rfl
    · intro h
      have hp : dp = none := h ⟨dm, dn, dp⟩ rfl
      subst hp
      cases dm <;> cases dn <;> rfl

/-- Witness for C9: a failed fetch keeps the mortality placeholder; a document
with no keys keeps the nutrition placeholder. -/
theorem c9_placeholders_retained_witness :
    (loadDataFromJSON .netFail initCharts).mortality = initCharts.mortality
    ∧ (loadDataFromJSON (.doc ⟨none, none, none⟩) initCharts).nutrition
        = initCharts.nutrition :=
  ⟨(c9_placeholders_retained .netFail).1 (fun _ h => nomatch h),
   (c9_placeholders_retained (.doc ⟨none, none, none⟩)).2.1
     (fun _ h => by cases h; rfl)⟩

theorem leadsChars_self_append (n t : List Char) : leadsChars n (n ++ t) = true :=
  leadsChars_append_right n n t (leadsChars_refl n)

theorem withinChars_self_append (n t : List Char) : withinChars n (n ++ t) = true :=
  withinChars_head n (n ++ t) (leadsChars_self_append n t)

/-- C2 counterexample: with start_year supplied as the integer 0 (a value the
input schema admits), the constructed URL carries no startPeriod parameter at
all, refuting "contains startPeriod=<start_year> exactly when start_year was
supplied". -/
theorem c2_counterexample :
    strIncludes (getDataUrl (some "CME") (some "BRA") none (some 0) (some 2010))
      "startPeriod" = false := by decide

/-- C2 (amended): the dimension key is <country>.<indicator> with the supplied
indicator (so <country>. with a trailing dot when it is omitted), and the URL
carries startPeriod=<start_year> exactly when a truthy (nonzero) start_year was
supplied — the period fragment appended for an absent or zero year is empty —
and likewise endPeriod=<end_year>. -/
theorem c2_key_and_period_params (df cc ind : Option String) (sy ey : Option Int) :
    dataKeyOf cc ind = jsShow cc ++ "." ++ ind.getD ""
    ∧ (∀ y : Int, sy = some y → y ≠ 0 →
        strIncludes (getDataUrl df cc ind sy ey) ("startPeriod=" ++ toString y) = true)
    ∧ (sy = none ∨ sy = some 0 → startSegOf sy = "")
    ∧ (∀ y : Int, ey = some y → y ≠ 0 →
        strIncludes (getDataUrl df cc ind sy ey) ("endPeriod=" ++ toString y) = true)
    ∧ (ey = none ∨ ey = some 0 → endSegOf ey = "") := by
  refine ⟨?_, ?_, ?_, ?_, ?_⟩
  · unfold dataKeyOf
    cases ind with
    | none =>
      simp only [jsTruthyS, Bool.false_eq_true, if_false, Option.getD_none]
      rw [strApp_assoc, strApp_nilR]
    | some i =>
      cases hi : i == "" with
      | true =>
        have : i = "" := eq_of_beq hi
        subst this
        simp only [jsTruthyS, bne_self_eq_false, Bool.false_eq_true, if_false,
          Option.getD_some]
        rw [strApp_assoc, strApp_nilR]
      | false =>
        have hne : i ≠ "" := ne_of_beq_false hi
        simp only [jsTruthyS, Option.getD_some, bne_iff_ne, ne_eq, hne,
          not_false_eq_true, if_true, jsShow]
        rw [strApp_assoc]
  · intro y hy hy0
    subst hy
    have hseg : startSegOf (some y) = "&startPeriod=" ++ toString y := by
      simp [startSegOf, jsTruthyI, jsShowInt, bne_iff_ne, hy0]
    unfold getDataUrl strIncludes
    rw [hseg]
    simp only [strData_append, List.append_assoc]
    apply withinChars_append_left
    apply withinChars_append_left
    apply withinChars_append_left
    apply withinChars_append_left
    apply withinChars_append_left
    apply withinChars_append_left
    apply withinChars_cons
    exact withinChars_self_append _ _
  · rintro (h | h) <;> subst h <;> rfl
  · intro y hy hy0
    subst hy
    have hseg : endSegOf (some y) = "&endPeriod=" ++ toString y := by
      simp [endSegOf, jsTruthyI, jsShowInt, bne_iff_ne, hy0]
    unfold getDataUrl strIncludes
    rw [hseg]
    simp only [strData_append, List.append_assoc]
    apply withinChars_append_left
    apply withinChars_append_left
    apply withinChars_append_left
    apply withinChars_append_left
    apply withinChars_append_left
    apply withinChars_append_left
    apply withinChars_append_left
    apply withinChars_cons
    exact withinChars_head _ _ (leadsChars_refl _)
  · rintro (h | h) <;> subst h <;> rfl

/-- Witness for C2 (amended) at BRA / CME with the years 2000 and 2010. -/
theorem c2_key_and_period_params_witness :
    strIncludes (getDataUrl (some "CME") (some "BRA") none (some 2000) (some 2010))
        ("startPeriod=" ++ toString (2000 : Int)) = true
    ∧ strIncludes (getDataUrl (some "CME") (some "BRA") none (some 2000) (some 2010))
        ("endPeriod=" ++ toString (2010 : Int)) = true :=
  ⟨(c2_key_and_period_params (some "CME") (some "BRA") none (some 2000)
      (some 2010)).2.1 2000 rfl (by decide),
   (c2_key_and_period_params (some "CME") (some "BRA") none (some 2000)
      (some 2010)).2.2.2.1 2010 rfl (by decide)⟩

def c3Url : String :=
  "https://sdmx.data.unicef.org/ws/public/sdmxapi/rest/data/UNICEF,CHLD_PVTY,1.0/.?format=csv"

def oRow : Oracle :=
  ⟨.ok [], fun _ => .ok [],
   fun u => if u == c3Url then .ok "ROW" else .error "unreachable"⟩

/-- C3 counterexample: with an empty country code, the data-retrieval URL is
still built (with the empty code interpolated) and consulted — the oracle only
answers at that exact URL — and the invocation returns the remote body as a
normal payload instead of reporting a caller error. -/
theorem c3_counterexample :
    getDataUrl (some "CHLD_PVTY") (some "") none none none = c3Url
    ∧ dispatch oRow "get_indicator_for_country"
        ⟨some "CHLD_PVTY", some "", none, none, none, none⟩ = "ROW" := by
  constructor
  · decide
  · decide

/-- C3 (amended): getData performs no validation of the dataflow or country
code — for every invocation, including one whose codes are absent or empty, the
single request at the constructed URL is issued and a nonempty remote body is
returned verbatim. -/
theorem c3_no_validation (o : Oracle) (df cc ind : Option String)
    (sy ey : Option Int) (body : String)
    (hb : o.dataRes (getDataUrl df cc ind sy ey) = Except.ok body)
    (hne : jsTrim body ≠ "") :
    getData o df cc ind sy ey = .ok body := by
  unfold getData
  rw [hb]
  have hb0 : (body == "") = false := by
    cases hbe : body == "" with
    | false => rfl
    | true =>
      exfalso
      apply hne
      rw [eq_of_beq hbe]
      rfl
  have ht : (jsTrim body == "") = false := beq_eq_false_iff_ne.mpr hne
  simp [hb0, ht]

def oData : Oracle := ⟨.ok [], fun _ => .ok [], fun _ => .ok "YEAR,VALUE"⟩

/-- Witness for C3 (amended) at an empty country code: the remote body comes
back verbatim. -/
theorem c3_no_validation_witness :
    getData oData (some "CHLD_PVTY") (some "") none none none = .ok "YEAR,VALUE" :=
  c3_no_validation oData (some "CHLD_PVTY") (some "") none none none
    "YEAR,VALUE" rfl (by decide)

def cls4 : List Codelist := [⟨some "CL_FOO", some []⟩]

def o4 : Oracle := ⟨.ok [], fun _ => .ok cls4, fun _ => .ok ""⟩

/-- C4 counterexample: on a metadata response whose only codelist is CL_FOO
(matching neither INDICATOR nor IND), search_indicators returns the fixed
message "Could not find indicator codelist", which does not contain the
identifier CL_FOO that was present. -/
theorem c4_counterexample :
    searchIndicators o4 (some "poverty") = .ok "Could not find indicator codelist"
    ∧ strIncludes "Could not find indicator codelist" "CL_FOO" = false := by
  constructor
  · decide
  · decide

/-- C4 (amended): when no codelist identifier contains "INDICATOR" or "IND",
get_indicators returns the diagnostic listing the identifiers that were present
(each one occurs in the payload), but search_indicators returns the fixed
message "Could not find indicator codelist" without listing them. -/
theorem c4_no_codelist_diagnostics (o : Oracle) (df : Option String) (kw : String)
    (cls : List Codelist)
    (hm : o.metaRes (jsShow df) = Except.ok cls)
    (hg : o.metaRes "GLOBAL_DATAFLOW" = Except.ok cls)
    (hf : cls.find? hasIndicatorId = none) :
    getIndicators o df = .ok ("No indicator codelist found for dataflow "
        ++ jsShow df ++ ". Available codelists: "
        ++ joinComma (cls.map (fun c => c.id.getD "")))
    ∧ (∀ c ∈ cls, strIncludes ("No indicator codelist found for dataflow "
        ++ jsShow df ++ ". Available codelists: "
        ++ joinComma (cls.map (fun c => c.id.getD ""))) (c.id.getD "") = true)
    ∧ searchIndicators o (some kw) = .ok "Could not find indicator codelist" := by
  refine ⟨?_, ?_, ?_⟩
  · simp [getIndicators, hm, hf]
  · intro c hc
    have hmem : (c.id.getD "") ∈ cls.map (fun c => c.id.getD "") :=
      List.mem_map_of_mem _ hc
    unfold strIncludes
    rw [strData_append]
    exact withinChars_append_left _ _ _
      (joinComma_mem_within (cls.map (fun c => c.id.getD "")) _ hmem)
  · simp [searchIndicators, hg, hf]

/-- Witness for C4 (amended): the CL_FOO identifier occurs in the
get_indicators diagnostic, and search_indicators returns the fixed message. -/
theorem c4_no_codelist_diagnostics_witness :
    strIncludes ("No indicator codelist found for dataflow "
        ++ jsShow (some "CME") ++ ". Available codelists: "
        ++ joinComma (cls4.map (fun c => c.id.getD ""))) "CL_FOO" = true
    ∧ searchIndicators o4 (some "poverty") = .ok "Could not find indicator codelist" :=
  ⟨(c4_no_codelist_diagnostics o4 (some "CME") "poverty" cls4 rfl rfl
      (by decide)).2.1 ⟨some "CL_FOO", some []⟩ (by decide),
   (c4_no_codelist_diagnostics o4 (some "CME") "poverty" cls4 rfl rfl
      (by decide)).2.2⟩

/-- C5: whenever the remote body of a data-retrieval invocation trims to the
empty string (it is empty or whitespace-only), the result is the normal
payload "No data found for <country> in <dataflow>" — not an empty success
payload and not a thrown error. -/
theorem c5_empty_body_message (o : Oracle) (df cc ind : Option String)
    (sy ey : Option Int) (body : String)
    (hb : o.dataRes (getDataUrl df cc ind sy ey) = Except.ok body)
    (hw : jsTrim body = "") :
    getData o df cc ind sy ey
      = .ok ("No data found for " ++ jsShow cc ++ " in " ++ jsShow df) := by
  unfold getData
  rw [hb]
  simp [hw]

def oBlank : Oracle := ⟨.ok [], fun _ => .ok [], fun _ => .ok "  \n "⟩

/-- Witness for C5 at a whitespace-only body for BRA / CME. -/
theorem c5_empty_body_message_witness :
    getData oBlank (some "CME") (some "BRA") none none none
      = .ok ("No data found for " ++ jsShow (some "BRA") ++ " in " ++ jsShow (some "CME")) :=
  c5_empty_body_message oBlank (some "CME") (some "BRA") none none none
    "  \n " rfl (by decide)

/-- C6: on the indicator codelist the adapter found, search_indicators returns
exactly the entries whose identifier or label contains the keyword
case-insensitively, truncated to at most 50, and serializes the empty list as
a normal "[]" payload (not an error) when zero entries match. -/
theorem c6_search_keyword_filter (o : Oracle) (kw : String) (cls : List Codelist)
    (cl : Codelist) (codes : List Code)
    (hg : o.metaRes "GLOBAL_DATAFLOW" = Except.ok cls)
    (hf : cls.find? hasIndicatorId = some cl)
    (hc : cl.codes = some codes) :
    searchIndicators o (some kw)
      = .ok (entriesJson (((codes.filter (ciMatch kw)).map codeEntry).take 50))
    ∧ ((searchMatches kw codes).take 50).length ≤ 50
    ∧ (codes.filter (ciMatch kw) = [] → searchIndicators o (some kw) = .ok "[]") := by
  have hpred : codes.filter (searchPred (strLower kw)) = codes.filter (ciMatch kw) :=
    List.filter_congr (fun c _ => by
      simp only [searchPred, ciMatch]
      exact Bool.or_comm _ _)
  refine ⟨?_, ?_, ?_⟩
  · simp [searchIndicators, hg, hf, hc, searchMatches, hpred]
  · exact le_trans (List.length_take_le 50 _) (le_refl 50)
  · intro hnil
    rw [← hpred] at hnil
    simp [searchIndicators, hg, hf, hc, searchMatches, hnil, entriesJson]

def code6 : Code := ⟨some "PV_CHLD", some "Children in poverty", none⟩

def cl6 : Codelist := ⟨some "CL_INDICATORS", some [code6]⟩

def o6 : Oracle := ⟨.ok [], fun _ => .ok [cl6], fun _ => .ok ""⟩

/-- Witness for C6: a keyword matching nothing yields the normal "[]" payload. -/
theorem c6_search_keyword_filter_witness :
    searchIndicators o6 (some "zzz") = .ok "[]" :=
  (c6_search_keyword_filter o6 "zzz" [cl6] cl6 [code6] rfl (by decide) rfl).2.2
    (by decide)

/-- C7: getIndicators selects the first codelist whose identifier matches the
INDICATOR/IND heuristic — every earlier codelist fails it — and returns the
first at most 100 of its codes, each shaped as an {id, label} pair by
codeEntry. -/
theorem c7_first_codelist_first100 (o : Oracle) (df : Option String)
    (cls : List Codelist) (cl : Codelist)
    (hm : o.metaRes (jsShow df) = Except.ok cls)
    (hf : cls.find? hasIndicatorId = some cl) :
    hasIndicatorId cl = true
    ∧ (∃ pre post, cls = pre ++ cl :: post ∧ ∀ c ∈ pre, hasIndicatorId c = false)
    ∧ getIndicators o df
        = .ok (entriesJson (((cl.codes.getD []).map codeEntry).take 100))
    ∧ (((cl.codes.getD []).map codeEntry).take 100).length ≤ 100 := by
  obtain ⟨hp, pre, post, heq, hall⟩ := find?_decomp hasIndicatorId cls cl hf
  refine ⟨hp, ⟨pre, post, heq, hall⟩, ?_, List.length_take_le 100 _⟩
  simp [getIndicators, hm, hf]

def clAge : Codelist := ⟨some "CL_AGE", some []⟩

def code7 : Code := ⟨some "CME_MRY0", some "Under-five mortality rate", none⟩

def cl7 : Codelist := ⟨some "CL_INDICATOR", some [code7]⟩

def o7 : Oracle := ⟨.ok [], fun _ => .ok [clAge, cl7], fun _ => .ok ""⟩

/-- Witness for C7: CL_AGE is skipped, CL_INDICATOR is selected and its codes
are returned. -/
theorem c7_first_codelist_first100_witness :
    getIndicators o7 (some "CME")
      = .ok (entriesJson (((cl7.codes.getD []).map codeEntry).take 100)) :=
  (c7_first_codelist_first100 o7 (some "CME") [clAge, cl7] cl7 rfl
    (by decide)).2.2.1
